import Mathlib

/-!
Shallow embedding of the DSChain `UisControllerContract` chaincode
(`src/src/contracts/controller.ts`, record shapes from the contract's
model module).  The Fabric world state is modelled as an association
list from keys to structured values; each `@Transaction` method becomes
a pure function from a store to `Except Err Store` (an `Except.error`
models a thrown JS error, which on Fabric aborts the transaction with
no partial commit, so the pre-state is kept unchanged).
-/

namespace DSChain

/-- Association-list lookup, first binding wins.  This is the read side of a
JS object used as a string-keyed map (property read; `none` models
`undefined`). -/
def getKV {κ α : Type} [DecidableEq κ] : List (κ × α) → κ → Option α
  | [], _ => none
  | (k1, v) :: rest, k => if k1 = k then some v else getKV rest k

/-- Association-list update.  This is JS property assignment on an object map:
an existing binding is overwritten in place (key insertion order preserved),
a new binding is appended at the end. -/
def setKV {κ α : Type} [DecidableEq κ] : List (κ × α) → κ → α → List (κ × α)
  | [], k, v => [(k, v)]
  | (k1, v1) :: rest, k, v =>
      if k1 = k then (k, v) :: rest else (k1, v1) :: setKV rest k v

/-- JS truthiness of a possibly-absent boolean property: `undefined` and
`false` are falsy, `true` is truthy. -/
def truthy : Option Bool → Bool
  | some b => b
  | none => false

/-- Org record shape (contract model: `users`, `pubs`, `subs` are
string-to-boolean maps; `datasets` maps a dataset id to a bare numeric
access bitmask, exactly as `updateOrgDatasetAccess` writes it). -/
structure Org where
  id : String
  name : String
  access : Nat
  users : List (String × Bool)
  pubs : List (String × Bool)
  subs : List (String × Bool)
  datasets : List (String × Nat)
  deriving DecidableEq

/-- User record shape (contract model: `orgs` is a string-to-boolean map). -/
structure User where
  id : String
  name : String
  email : String
  phone : String
  orgs : List (String × Bool)
  deriving DecidableEq

/-- Ledger keys.  `org` and `user` are the composite keys built by
`getOrgKey`/`getUserKey` from distinct type prefixes; `owner`, `initMarker`
and `channelToPubs` are the well-known flat constant keys.  Fabric's
composite-key scheme keeps all five families disjoint, which the inductive
constructors capture. -/
inductive Key where
  | owner
  | initMarker
  | channelToPubs
  | org (id : String)
  | user (id : String)
  deriving DecidableEq

/-- Values stored on the ledger: the owner identity and init-marker strings,
serialized Org and User records, and the shared channel-to-publishers index
(a map from channel name to the list of publisher org ids). -/
inductive Value where
  | str (s : String)
  | org (o : Org)
  | user (u : User)
  | chanIdx (m : List (String × List String))
  deriving DecidableEq

/-- The world state: a key/value map, modelled as an association list. -/
abbrev Store := List (Key × Value)

/-- Errors thrown by the contract.  `keyNotFound` is getObjectByKey's
"Key ... has no corresponding content", `alreadyInit` is init's
"Initialized", `permissionDenied` is onlyOwner's "Ownership: no permission",
`orgExists` is addOrg's "Org ... exists", and `typeError` is a JS runtime
TypeError escaping the method. -/
inductive Err where
  | keyNotFound (k : Key)
  | alreadyInit
  | permissionDenied
  | orgExists (id : String)
  | typeError
  deriving DecidableEq

/-- ctx.stub.getState: read a key, `none` when absent (empty buffer). -/
def getState (st : Store) (k : Key) : Option Value := getKV st k

/-- ctx.stub.putState: write a key. -/
def putState (st : Store) (k : Key) (v : Value) : Store := setKV st k v

/-- ctx.stub.deleteState: remove a key's binding. -/
def deleteState : Store → Key → Store
  | [], _ => []
  | (k1, v) :: rest, k =>
      if k1 = k then rest else (k1, v) :: deleteState rest k

/-- getObjectByKey (controller.ts 179-189): reads the key and throws
"Key ... has no corresponding content" when the stored content is empty,
i.e. when the key is absent; otherwise the JSON content parses back to the
structured value that was written. -/
def getObjectByKey (st : Store) (k : Key) : Except Err Value :=
  match getState st k with
  | none => .error (.keyNotFound k)
  | some v => .ok v

/-- Fetch an org record through getObjectByKey.  Records are untyped JSON in
the source; a value of a different shape would fail at its first field
access, modelled as a type error (unreachable for the stores considered
here, where org keys only ever hold Org records). -/
def getOrgObj (st : Store) (id : String) : Except Err Org :=
  match getObjectByKey st (Key.org id) with
  | .error e => .error e
  | .ok (Value.org o) => .ok o
  | .ok _ => .error .typeError

/-- Buffer.toString of a getState result: an absent key (empty buffer) reads
as the empty string. -/
def strOf : Option Value → String
  | some (Value.str s) => s
  | _ => ""

/-- The stored Owner identity, as the string comparison in onlyOwner sees
it (empty when the owner key was never written). -/
def ownerString (st : Store) : String := strOf (getState st Key.owner)

/-- The init-marker content, as the emptiness test in init sees it. -/
def markerString (st : Store) : String := strOf (getState st Key.initMarker)

/-- Modelled from the spec: the contract imports `./constants`, which is not
in the source tree.  The spec describes an init marker that is set after
initialization and tested by non-emptiness, so the marker payload is any
fixed non-empty string. -/
def trueMarker : String := "true"

/-- init (controller.ts 35-48): throws "Initialized" when the marker content
is non-empty, otherwise stores the caller's principal id at the owner key
and sets the marker. -/
def init (st : Store) (callerId : String) : Except Err Store :=
  if markerString st ≠ "" then .error .alreadyInit
  else
    .ok (putState (putState st Key.owner (Value.str callerId))
          Key.initMarker (Value.str trueMarker))

/-- onlyOwner (controller.ts 59-64): throws "Ownership: no permission"
unless the stored owner string equals the caller's principal id. -/
def onlyOwner (st : Store) (callerId : String) : Except Err Unit :=
  if ownerString st ≠ callerId then .error .permissionDenied else .ok ()

/-- addOrg (controller.ts 80-109), the spec's createOrg.  After the owner
check it looks the org key up with the THROWING getObjectByKey (so a fresh
id fails with keyNotFound), and when that lookup succeeds it throws
"Org ... exists" unconditionally; the Org construction and putState that
follow the throw in the source are unreachable dead code. -/
def addOrg (st : Store) (callerId id name : String) (access : Nat) :
    Except Err Store :=
  match onlyOwner st callerId with
  | .error e => .error e
  | .ok _ =>
    match getObjectByKey st (Key.org id) with
    | .error e => .error e
    | .ok _ => .error (.orgExists id)

/-- updateOrgName (controller.ts 111-126), the spec's renameOrg. -/
def updateOrgName (st : Store) (callerId id name : String) :
    Except Err Store :=
  match onlyOwner st callerId with
  | .error e => .error e
  | .ok _ =>
    match getOrgObj st id with
    | .error e => .error e
    | .ok org =>
        .ok (putState st (Key.org id) (Value.org { org with name := name }))

/-- updateOrgAccess (controller.ts 128-143), the spec's setOrgAccess. -/
def updateOrgAccess (st : Store) (callerId id : String) (access : Nat) :
    Except Err Store :=
  match onlyOwner st callerId with
  | .error e => .error e
  | .ok _ =>
    match getOrgObj st id with
    | .error e => .error e
    | .ok org =>
        .ok (putState st (Key.org id) (Value.org { org with access := access }))

/-- updateOrgDatasetAccess (controller.ts 145-162), the spec's
setDatasetGrant.  It stores the bare numeric access bitmask as the value of
`datasets[dataset]`: there is no expiredAt argument and no grant object. -/
def updateOrgDatasetAccess (st : Store) (callerId id dataset : String)
    (access : Nat) : Except Err Store :=
  match onlyOwner st callerId with
  | .error e => .error e
  | .ok _ =>
    match getOrgObj st id with
    | .error e => .error e
    | .ok org =>
        .ok (putState st (Key.org id)
              (Value.org { org with datasets := setKV org.datasets dataset access }))

/-- removeOrg (controller.ts 164-169), the spec's deleteOrg: unconditional
delete after the owner check. -/
def removeOrg (st : Store) (callerId id : String) : Except Err Store :=
  match onlyOwner st callerId with
  | .error e => .error e
  | .ok _ => .ok (deleteState st (Key.org id))

/-- addUser (controller.ts 191-225).  The calling org's record gets
`users[id] = true` and is rewritten.  Then `let user: User;` is declared,
but the `const user` inside the try block SHADOWS it: when the user record
already exists the outer `user` stays undefined and the final
putState serializes undefined, which throws a TypeError at runtime.  When
the record does not exist, the catch branch builds the literal
`{ id, name, email, phone, orgs: { orgId: true } }` whose orgs map has the
LITERAL key "orgId" (not the computed calling-org id). -/
def addUser (st : Store) (callerOrg id name email phone : String) :
    Except Err Store :=
  match getOrgObj st callerOrg with
  | .error e => .error e
  | .ok org =>
    let st1 := putState st (Key.org callerOrg)
        (Value.org { org with users := setKV org.users id true })
    match getObjectByKey st1 (Key.user id) with
    | .ok _ => .error .typeError
    | .error _ =>
        let user : User :=
          { id := id, name := name, email := email, phone := phone,
            orgs := [("orgId", true)] }
        .ok (putState st1 (Key.user id) (Value.user user))

/-- removeUser (controller.ts 227-246).  Only acts when the calling org's
`users[id]` flag is truthy: it flips that flag to false and rewrites the
org record.  The user record is then fetched inside a try/catch and its
`orgs[orgId]` flag is flipped only on the in-memory copy — there is no
putState for the user key, so the ledger's user record is unchanged and
any fetch failure is swallowed. -/
def removeUser (st : Store) (callerOrg id : String) : Except Err Store :=
  match getOrgObj st callerOrg with
  | .error e => .error e
  | .ok org =>
    if truthy (getKV org.users id) then
      .ok (putState st (Key.org callerOrg)
            (Value.org { org with users := setKV org.users id false }))
    else
      .ok st

/-- publishDatasetTo (controller.ts 282-333).  The caller's org record gets
`pubs[channel] = true` and is rewritten; then the shared
channel-to-publishers index is updated inside a try/catch: if the index key
is absent, getObjectByKey throws and the catch writes a fresh
one-entry index; if it is present but the channel key is missing,
`channelToPubs[channel].push` throws on undefined and the catch adds the
channel entry to the already-fetched index object; otherwise the caller's
org id is appended to the channel's list.  The `dataset` and `access`
arguments are never used (the block that used `dataset` is commented out in
the source). -/
def publishDatasetTo (st : Store) (callerOrg dataset channel : String)
    (access : Nat) : Except Err Store :=
  match getOrgObj st callerOrg with
  | .error e => .error e
  | .ok org =>
    let st1 := putState st (Key.org callerOrg)
        (Value.org { org with pubs := setKV org.pubs channel true })
    let idx :=
      match getState st1 Key.channelToPubs with
      | some (Value.chanIdx m) =>
          match getKV m channel with
          | some pubs => setKV m channel (pubs ++ [callerOrg])
          | none => setKV m channel [callerOrg]
      | _ => [(channel, [callerOrg])]
    .ok (putState st1 Key.channelToPubs (Value.chanIdx idx))

/-- revokePublishedDataset (controller.ts 335-343): declared with an empty
body (a TODO in the source), so it commits nothing. -/
def revokePublishedDataset (st : Store) (callerOrg dataset channel : String)
    (access : Nat) : Except Err Store :=
  .ok st

/-- subscribe (controller.ts 345-373): the caller's org record gets
`subs[channel] = true` and is rewritten (the cross-org index update is
commented out in the source). -/
def subscribe (st : Store) (callerOrg channel : String) : Except Err Store :=
  match getOrgObj st callerOrg with
  | .error e => .error e
  | .ok org =>
      .ok (putState st (Key.org callerOrg)
            (Value.org { org with subs := setKV org.subs channel true }))

/-- revokeSubscribing (controller.ts 375-386): sets `subs[channel] = false`
(soft revoke, record retained). -/
def revokeSubscribing (st : Store) (callerOrg channel : String) :
    Except Err Store :=
  match getOrgObj st callerOrg with
  | .error e => .error e
  | .ok org =>
      .ok (putState st (Key.org callerOrg)
            (Value.org { org with subs := setKV org.subs channel false }))

/-- queryAccessOnDataset (controller.ts 388-424).  It loads the
channel-to-publishers index and then the user record through the throwing
getObjectByKey (NotFound when either key is absent).  It then executes
`for (const orgId of user.orgs)`.  `user.orgs` is a plain JSON object
(string-to-boolean map in the contract model, and the only writer, addUser,
stores it as an object literal), and a plain object does not implement the
JS iterable protocol, so this for...of statement throws a TypeError before
the first iteration — for every user record, even one with an empty orgs
map.  The loop body (org lookup, subs scan, publisher scan) and the final
`return 0x000` are therefore unreachable. -/
def queryAccessOnDataset (st : Store) (userId dataset : String) :
    Except Err Nat :=
  match getObjectByKey st Key.channelToPubs with
  | .error e => .error e
  | .ok _ =>
    match getObjectByKey st (Key.user userId) with
    | .error e => .error e
    | .ok _ => .error .typeError

/-- One submitted transaction of the contract, with its arguments.  The
first argument of each constructor is the caller identity the method reads
from the Identity Context (the principal id for owner-gated methods, the
MSP org id for the org-scoped ones).  The read-only endpoints
(`owner`, `getOrg`, `getUsers`, `getUser`, `queryAccessOnDataset`) are
declared `@Transaction(false)` and commit no writes, so they appear as
state-preserving constructors. -/
inductive Tx where
  | init (callerId : String)
  | addOrg (callerId id name : String) (access : Nat)
  | updateOrgName (callerId id name : String)
  | updateOrgAccess (callerId id : String) (access : Nat)
  | updateOrgDatasetAccess (callerId id dataset : String) (access : Nat)
  | removeOrg (callerId id : String)
  | addUser (callerOrg id name email phone : String)
  | removeUser (callerOrg id : String)
  | publishDatasetTo (callerOrg dataset channel : String) (access : Nat)
  | revokePublishedDataset (callerOrg dataset channel : String) (access : Nat)
  | subscribe (callerOrg channel : String)
  | revokeSubscribing (callerOrg channel : String)
  | readOnlyQuery
  deriving DecidableEq

/-- State effect of one transaction. -/
def step : Tx → Store → Except Err Store
  | .init c, st => init st c
  | .addOrg c i n a, st => addOrg st c i n a
  | .updateOrgName c i n, st => updateOrgName st c i n
  | .updateOrgAccess c i a, st => updateOrgAccess st c i a
  | .updateOrgDatasetAccess c i d a, st => updateOrgDatasetAccess st c i d a
  | .removeOrg c i, st => removeOrg st c i
  | .addUser c i n e p, st => addUser st c i n e p
  | .removeUser c i, st => removeUser st c i
  | .publishDatasetTo c d ch a, st => publishDatasetTo st c d ch a
  | .revokePublishedDataset c d ch a, st => revokePublishedDataset st c d ch a
  | .subscribe c ch, st => subscribe st c ch
  | .revokeSubscribing c ch, st => revokeSubscribing st c ch
  | .readOnlyQuery, st => .ok st

/-- Committed state after one transaction: a thrown error aborts with no
partial commit (the ledger applies a transaction's writes all-or-nothing),
so a failing transaction leaves the state unchanged. -/
def applyTx (tx : Tx) (st : Store) : Store :=
  match step tx st with
  | .ok st1 => st1
  | .error _ => st

/-- Committed state after a sequence of submitted transactions. -/
def runTxs (txs : List Tx) (st : Store) : Store :=
  txs.foldl (fun s t => applyTx t s) st

/-- Publisher org of the spec's worked example: A publishes dataset d1 on
channel c1 with access READ = 16. -/
def orgA : Org :=
  { id := "A", name := "OrgA", access := 0, users := [],
    pubs := [("c1", true)], subs := [], datasets := [("d1", 16)] }

/-- Publisher org A before any grant on d1 (used for the grant-writing
step). -/
def orgA0 : Org :=
  { id := "A", name := "OrgA", access := 0, users := [],
    pubs := [("c1", true)], subs := [], datasets := [] }

/-- Subscriber org of the spec's worked example: B subscribes to c1 and
lists user u1. -/
def orgB : Org :=
  { id := "B", name := "OrgB", access := 0, users := [("u1", true)],
    pubs := [], subs := [("c1", true)], datasets := [] }

/-- Org B after revokeSubscribing("c1"): the subs flag is soft-revoked. -/
def orgBrevoked : Org :=
  { id := "B", name := "OrgB", access := 0, users := [("u1", true)],
    pubs := [], subs := [("c1", false)], datasets := [] }

/-- User u1 of the spec's worked example, member of org B. -/
def userU1 : User :=
  { id := "u1", name := "UserOne", email := "u1-mail", phone := "1",
    orgs := [("B", true)] }

/-- The spec's worked example state: initialized contract with owner
"owner1", index mapping c1 to publisher A, orgs A and B, user u1; exactly
one path u1 -> B -> c1 -> A -> d1 with access 16 exists. -/
def stExample : Store :=
  [ (Key.owner, Value.str "owner1"),
    (Key.initMarker, Value.str trueMarker),
    (Key.channelToPubs, Value.chanIdx [("c1", ["A"])]),
    (Key.org "A", Value.org orgA),
    (Key.org "B", Value.org orgB),
    (Key.user "u1", Value.user userU1) ]

/-- The worked example state before the d1 grant is written on A. -/
def stExamplePre : Store :=
  [ (Key.owner, Value.str "owner1"),
    (Key.initMarker, Value.str trueMarker),
    (Key.channelToPubs, Value.chanIdx [("c1", ["A"])]),
    (Key.org "A", Value.org orgA0),
    (Key.org "B", Value.org orgB),
    (Key.user "u1", Value.user userU1) ]

/-- The worked example state after org B soft-revokes its c1 subscription:
the only path to d1 passes through the revoked subscription. -/
def stRevoked : Store :=
  [ (Key.owner, Value.str "owner1"),
    (Key.initMarker, Value.str trueMarker),
    (Key.channelToPubs, Value.chanIdx [("c1", ["A"])]),
    (Key.org "A", Value.org orgA),
    (Key.org "B", Value.org orgBrevoked),
    (Key.user "u1", Value.user userU1) ]

/-- A state with a known user but no channel-to-publishers index. -/
def stNoIdx : Store :=
  [ (Key.org "B", Value.org orgB),
    (Key.user "u1", Value.user userU1) ]

/-- A state with the index present but no user record for u1. -/
def stNoUser : Store :=
  [ (Key.channelToPubs, Value.chanIdx [("c1", ["A"])]) ]

/-- A state where user u1's orgs set names org B but org B's record is
missing from the store (a dangling membership reference). -/
def stDangling : Store :=
  [ (Key.channelToPubs, Value.chanIdx [("c1", ["A"])]),
    (Key.user "u1", Value.user userU1) ]

/-- An initialized store holding only the owner identity and the marker. -/
def stOwnerOnly : Store :=
  [ (Key.owner, Value.str "owner1"),
    (Key.initMarker, Value.str trueMarker) ]

/-- An initialized store that already holds org A. -/
def stWithOrgA : Store :=
  [ (Key.owner, Value.str "owner1"),
    (Key.initMarker, Value.str trueMarker),
    (Key.org "A", Value.org orgA) ]

/-- A fresh calling org for the addUser scenario, named as Fabric names the
first test org's MSP. -/
def orgO : Org :=
  { id := "Org1MSP", name := "OrgOne", access := 0, users := [],
    pubs := [], subs := [], datasets := [] }

/-- A store holding only the calling org, with no user record for u1. -/
def stOrg1 : Store := [ (Key.org "Org1MSP", Value.org orgO) ]

/-- A pre-existing user record for the addUser existing-user scenario. -/
def userOld : User :=
  { id := "u1", name := "Old", email := "old-mail", phone := "0",
    orgs := [("OtherOrg", true)] }

/-- A store holding the calling org and an already-existing user u1. -/
def stOrg1WithUser : Store :=
  [ (Key.org "Org1MSP", Value.org orgO),
    (Key.user "u1", Value.user userOld) ]

/-- Calling org for the removeUser idempotence witness, listing u1. -/
def orgW : Org :=
  { id := "O", name := "OrgW", access := 0, users := [("u1", true)],
    pubs := [], subs := [], datasets := [] }

/-- Store for the removeUser idempotence witness. -/
def stW : Store := [ (Key.org "O", Value.org orgW) ]

/-- Calling org of the addUser scenario after `users["u1"] = true`. -/
def orgOAfter : Org :=
  { id := "Org1MSP", name := "OrgOne", access := 0, users := [("u1", true)],
    pubs := [], subs := [], datasets := [] }

/-- The user record addUser actually creates for u1: the profile fields are
the arguments, but the orgs map carries the literal key "orgId". -/
def userNew : User :=
  { id := "u1", name := "n", email := "e", phone := "p",
    orgs := [("orgId", true)] }

/-- The store addUser actually commits in the fresh-user scenario. -/
def stOrg1After : Store :=
  [ (Key.org "Org1MSP", Value.org orgOAfter),
    (Key.user "u1", Value.user userNew) ]

/-- Overwriting a key and reading the same key back yields the new value. -/
theorem getKV_setKV_self {κ α : Type} [DecidableEq κ]
    (m : List (κ × α)) (k : κ) (v : α) : getKV (setKV m k v) k = some v := by
  induction m with
  | nil => simp [setKV, getKV]
  | cons p rest ih =>
      obtain ⟨k1, v1⟩ := p
      by_cases h : k1 = k
      · simp [setKV, getKV, h]
      · simp [setKV, getKV, h, ih]

/-- Writing one key leaves reads of any other key unchanged. -/
theorem getKV_setKV_ne {κ α : Type} [DecidableEq κ]
    (m : List (κ × α)) (k k2 : κ) (v : α) (h : k2 ≠ k) :
    getKV (setKV m k2 v) k = getKV m k := by
  induction m with
  | nil => simp [setKV, getKV, h]
  | cons p rest ih =>
      obtain ⟨k1, v1⟩ := p
      by_cases h1 : k1 = k2
      · subst h1; simp [setKV, getKV, h]
      · by_cases h2 : k1 = k <;> simp [setKV, getKV, h1, h2, Ne.symm h, ih]

/-- Deleting one key leaves reads of any other key unchanged. -/
theorem getState_deleteState_ne (st : Store) (k k2 : Key) (h : k2 ≠ k) :
    getState (deleteState st k2) k = getState st k := by
  induction st with
  | nil => rfl
  | cons p rest ih =>
      obtain ⟨k1, v1⟩ := p
      by_cases h1 : k1 = k2
      · subst h1; simp [deleteState, getState, getKV, h]
      · by_cases h2 : k1 = k <;>
          simp_all [deleteState, getState, getKV, h1, h2]

/-- One write at a non-flat key preserves the owner and init-marker keys. -/
theorem put_flat (st : Store) (k : Key) (v : Value)
    (h1 : k ≠ Key.owner) (h2 : k ≠ Key.initMarker) :
    getState (putState st k v) Key.owner = getState st Key.owner ∧
    getState (putState st k v) Key.initMarker = getState st Key.initMarker :=
  ⟨getKV_setKV_ne st Key.owner k v h1, getKV_setKV_ne st Key.initMarker k v h2⟩

/-- Two writes at non-flat keys preserve the owner and init-marker keys. -/
theorem put2_flat (st : Store) (k1 k2 : Key) (v1 v2 : Value)
    (h1o : k1 ≠ Key.owner) (h1m : k1 ≠ Key.initMarker)
    (h2o : k2 ≠ Key.owner) (h2m : k2 ≠ Key.initMarker) :
    getState (putState (putState st k1 v1) k2 v2) Key.owner
      = getState st Key.owner ∧
    getState (putState (putState st k1 v1) k2 v2) Key.initMarker
      = getState st Key.initMarker :=
  ⟨(getKV_setKV_ne _ Key.owner k2 v2 h2o).trans
      (getKV_setKV_ne st Key.owner k1 v1 h1o),
   (getKV_setKV_ne _ Key.initMarker k2 v2 h2m).trans
      (getKV_setKV_ne st Key.initMarker k1 v1 h1m)⟩

/-- Every transaction that commits from a state whose init marker is set
leaves the owner and init-marker keys untouched: init is the only writer of
those keys and it fails once the marker is non-empty. -/
theorem step_preserves_flat (tx : Tx) (st st1 : Store)
    (hm : markerString st ≠ "") (h : step tx st = .ok st1) :
    getState st1 Key.owner = getState st Key.owner ∧
    getState st1 Key.initMarker = getState st Key.initMarker := by
  cases tx with
  | init c =>
      simp only [step, init] at h
      rw [if_pos hm] at h
      exact Except.noConfusion h
  | addOrg c i n a =>
      simp only [step, addOrg] at h
      split at h
      · exact Except.noConfusion h
      · split at h
        · exact Except.noConfusion h
        · exact Except.noConfusion h
  | updateOrgName c i n =>
      simp only [step, updateOrgName] at h
      split at h
      · exact Except.noConfusion h
      · split at h
        · exact Except.noConfusion h
        · injection h with h2
          subst h2
          exact put_flat st (Key.org i) _
            (fun hc => Key.noConfusion hc) (fun hc => Key.noConfusion hc)
  | updateOrgAccess c i a =>
      simp only [step, updateOrgAccess] at h
      split at h
      · exact Except.noConfusion h
      · split at h
        · exact Except.noConfusion h
        · injection h with h2
          subst h2
          exact put_flat st (Key.org i) _
            (fun hc => Key.noConfusion hc) (fun hc => Key.noConfusion hc)
  | updateOrgDatasetAccess c i d a =>
      simp only [step, updateOrgDatasetAccess] at h
      split at h
      · exact Except.noConfusion h
      · split at h
        · exact Except.noConfusion h
        · injection h with h2
          subst h2
          exact put_flat st (Key.org i) _
            (fun hc => Key.noConfusion hc) (fun hc => Key.noConfusion hc)
  | removeOrg c i =>
      simp only [step, removeOrg] at h
      split at h
      · exact Except.noConfusion h
      · injection h with h2
        subst h2
        exact ⟨getState_deleteState_ne st Key.owner (Key.org i)
                 (fun hc => Key.noConfusion hc),
               getState_deleteState_ne st Key.initMarker (Key.org i)
                 (fun hc => Key.noConfusion hc)⟩
  | addUser c i n e p =>
      simp only [step, addUser] at h
      split at h
      · exact Except.noConfusion h
      · split at h
        · exact Except.noConfusion h
        · injection h with h2
          subst h2
          exact put2_flat st (Key.org c) (Key.user i) _ _
            (fun hc => Key.noConfusion hc) (fun hc => Key.noConfusion hc)
            (fun hc => Key.noConfusion hc) (fun hc => Key.noConfusion hc)
  | removeUser c i =>
      simp only [step, removeUser] at h
      split at h
      · exact Except.noConfusion h
      · split at h
        · injection h with h2
          subst h2
          exact put_flat st (Key.org c) _
            (fun hc => Key.noConfusion hc) (fun hc => Key.noConfusion hc)
        · injection h with h2
          subst h2
          exact ⟨rfl, rfl⟩
  | publishDatasetTo c d ch a =>
      simp only [publishDatasetTo, step] at h
      split at h
      · exact Except.noConfusion h
      · injection h with h2
        subst h2
        exact put2_flat st (Key.org c) Key.channelToPubs _ _
          (fun hc => Key.noConfusion hc) (fun hc => Key.noConfusion hc)
          (fun hc => Key.noConfusion hc) (fun hc => Key.noConfusion hc)
  | revokePublishedDataset c d ch a =>
      simp only [step, revokePublishedDataset] at h
      injection h with h2
      subst h2
      exact ⟨rfl, rfl⟩
  | subscribe c ch =>
      simp only [step, subscribe] at h
      split at h
      · exact Except.noConfusion h
      · injection h with h2
        subst h2
        exact put_flat st (Key.org c) _
          (fun hc => Key.noConfusion hc) (fun hc => Key.noConfusion hc)
  | revokeSubscribing c ch =>
      simp only [step, revokeSubscribing] at h
      split at h
      · exact Except.noConfusion h
      · injection h with h2
        subst h2
        exact put_flat st (Key.org c) _
          (fun hc => Key.noConfusion hc) (fun hc => Key.noConfusion hc)
  | readOnlyQuery =>
      simp only [step] at h
      injection h with h2
      subst h2
      exact ⟨rfl, rfl⟩

/-- Committed-state version of the preservation fact: a transaction applied
to an initialized state (whether it commits or aborts) changes neither the
stored owner string nor the marker string. -/
theorem applyTx_flat (tx : Tx) (st : Store) (hm : markerString st ≠ "") :
    ownerString (applyTx tx st) = ownerString st ∧
    markerString (applyTx tx st) = markerString st := by
  unfold applyTx
  cases hs : step tx st with
  | error e => exact ⟨rfl, rfl⟩
  | ok st1 =>
      have hp := step_preserves_flat tx st st1 hm hs
      exact ⟨congrArg strOf hp.1, congrArg strOf hp.2⟩

/-- Owner immutability over whole transaction sequences from any
initialized state. -/
theorem runTxs_owner_const (txs : List Tx) :
    ∀ st : Store, markerString st ≠ "" →
      ownerString (runTxs txs st) = ownerString st := by
  induction txs with
  | nil => intro st _; rfl
  | cons t ts ih =>
      intro st h
      have hf := applyTx_flat t st h
      have h2 : markerString (applyTx t st) ≠ "" := by
        rw [hf.2]; exact h
      calc ownerString (runTxs (t :: ts) st)
          = ownerString (runTxs ts (applyTx t st)) := rfl
        _ = ownerString (applyTx t st) := ih (applyTx t st) h2
        _ = ownerString st := hf.1

/-- C1: the claim states that in the spec's worked example state (one
path u1 -> org B -> channel c1 -> publisher A with datasets["d1"] granted
access 16) queryAccessOnDataset("u1","d1") returns 16, and that with no
path to the dataset it returns the zero bitmask instead of failing.  On
the code, both queries throw instead: after the index and user loads, the
statement iterating `user.orgs`, a plain JSON object, with for...of throws
a TypeError before the first iteration, so neither a bitmask nor a zero is
ever returned. -/
theorem C1_query_throws_instead_of_bitmask :
    queryAccessOnDataset stExample "u1" "d1" = .error Err.typeError ∧
    queryAccessOnDataset stExample "u1" "dX" = .error Err.typeError :=
  ⟨rfl, rfl⟩

/-- C2: the claim states that an expired grant (datasets entry whose
expiredAt lies before current ledger time) is treated as no match.  On the
code there is no expiry at all: updateOrgDatasetAccess stores the bare
numeric bitmask as the datasets value (no grant object, no expiredAt
argument or field, shown by the first two conjuncts writing and reading
the plain number 16), queryAccessOnDataset consults no clock, and the
query throws a TypeError on the worked-example state anyway. -/
theorem C2_grants_have_no_expiry :
    updateOrgDatasetAccess stExamplePre "owner1" "A" "d1" 16
      = .ok stExample ∧
    getKV orgA.datasets "d1" = some 16 ∧
    queryAccessOnDataset stExample "u1" "d1" = .error Err.typeError :=
  ⟨rfl, rfl, rfl⟩

/-- C3: the claim describes an asymmetric error policy: hard NotFound when
the channel-to-publishers index or the user record is absent (first two
conjuncts, which the code honours), but silent skipping of missing org
records during traversal.  The third conjunct refutes the skipping half:
with the index and user present but the user's org B record missing, the
query throws a TypeError (the for...of over `user.orgs`) instead of
skipping the dangling reference and returning the zero bitmask — and the
source's own "Never throw error" comments sit on lookups made with the
throwing getObjectByKey. -/
theorem C3_error_policy_not_asymmetric :
    queryAccessOnDataset stNoIdx "u1" "d1"
      = .error (Err.keyNotFound Key.channelToPubs) ∧
    queryAccessOnDataset stNoUser "u1" "d1"
      = .error (Err.keyNotFound (Key.user "u1")) ∧
    queryAccessOnDataset stDangling "u1" "d1" = .error Err.typeError :=
  ⟨rfl, rfl, rfl⟩

/-- C4: the claim states that after org B soft-revokes its c1 subscription
(subs["c1"] = false), a query whose only path runs through that
subscription does not use channel c1 and returns the zero bitmask.  The
code does soft-revoke the flag (first conjunct), but the query neither
filters subs keys by truthiness (it iterates Object.keys(org.subs)
regardless of value) nor even reaches that loop: it throws a TypeError at
the for...of over `user.orgs`, so it returns no zero bitmask. -/
theorem C4_revoked_subscription_query_throws :
    revokeSubscribing stExample "B" "c1" = .ok stRevoked ∧
    queryAccessOnDataset stRevoked "u1" "d1" = .error Err.typeError :=
  ⟨rfl, rfl⟩

/-- C5: the claim states that createOrg (source name addOrg) succeeds for a
fresh org id and fails with AlreadyExists only on a duplicate.  On the
code the success path is dead: for a fresh id the not-found-TOLERANT
lookup the spec asks for is actually the throwing getObjectByKey, so the
call fails with the key-not-found error (first conjunct); when the record
exists the method throws "Org exists" unconditionally (second conjunct);
and in general no invocation ever returns ok (third conjunct) — the Org
construction and write after the unconditional throw are unreachable. -/
theorem C5_addOrg_never_succeeds :
    addOrg stOwnerOnly "owner1" "A" "OrgA" 7
      = .error (Err.keyNotFound (Key.org "A")) ∧
    addOrg stWithOrgA "owner1" "A" "OrgA" 7 = .error (Err.orgExists "A") ∧
    ∀ st caller id name access, ∃ e,
      addOrg st caller id name access = .error e := by
  refine ⟨rfl, rfl, ?_⟩
  intro st caller id name access
  rcases ho : onlyOwner st caller with e | u
  · exact ⟨e, by simp [addOrg, ho]⟩
  · rcases hg : getObjectByKey st (Key.org id) with e | v
    · exact ⟨e, by simp [addOrg, ho, hg]⟩
    · exact ⟨.orgExists id, by simp [addOrg, ho, hg]⟩

/-- C6: initialization is exactly once and the owner is immutable.  From
any state whose init marker is unset, init succeeds and the committed
state stores the caller's principal id at the owner key with the marker
set; from any state whose marker is set, init fails with the
already-initialized error (and so commits nothing); and from any
initialized state, no sequence of submitted transactions ever changes the
stored owner string. -/
theorem C6_initialize_once_owner_immutable :
    (∀ st caller, markerString st = "" →
        ∃ st1, init st caller = .ok st1 ∧ ownerString st1 = caller ∧
          markerString st1 ≠ "") ∧
    (∀ st caller, markerString st ≠ "" →
        init st caller = .error Err.alreadyInit) ∧
    (∀ txs st, markerString st ≠ "" →
        ownerString (runTxs txs st) = ownerString st) := by
  refine ⟨?_, ?_, ?_⟩
  · intro st caller h
    refine ⟨putState (putState st Key.owner (Value.str caller))
        Key.initMarker (Value.str trueMarker), ?_, ?_, ?_⟩
    · simp [init, h]
    · show strOf (getState _ Key.owner) = caller
      simp only [getState, putState]
      rw [getKV_setKV_ne _ Key.owner Key.initMarker _
            (fun hc => Key.noConfusion hc),
          getKV_setKV_self]
      rfl
    · show strOf (getState _ Key.initMarker) ≠ ""
      simp only [getState, putState]
      rw [getKV_setKV_self]
      simp [strOf, trueMarker]
  · intro st caller h
    simp [init, h]
  · intro txs st h
    exact runTxs_owner_const txs st h

/-- C6 witness: on the empty store, init by "alice" commits a state owned
by "alice" with the marker set; on an initialized store a second init
fails with the already-initialized error; and a transaction run from the
initialized example state leaves the stored owner unchanged. -/
theorem C6_witness :
    (∃ st1, init ([] : Store) "alice" = .ok st1 ∧
        ownerString st1 = "alice" ∧ markerString st1 ≠ "") ∧
    init stOwnerOnly "intruder" = .error Err.alreadyInit ∧
    ownerString (runTxs [Tx.subscribe "B" "c9"] stExample)
      = ownerString stExample :=
  ⟨C6_initialize_once_owner_immutable.1 [] "alice" rfl,
   C6_initialize_once_owner_immutable.2.1 stOwnerOnly "intruder" (by decide),
   C6_initialize_once_owner_immutable.2.2 [Tx.subscribe "B" "c9"] stExample
     (by decide)⟩

/-- C7: every owner-restricted operation — addOrg (spec createOrg),
updateOrgName (renameOrg), updateOrgAccess (setOrgAccess),
updateOrgDatasetAccess (setDatasetGrant) and removeOrg (deleteOrg) —
fails with the permission-denied error for any caller whose identity
differs from the stored owner string (in particular any caller before
init, when the owner key reads as the empty string), and the committed
state is unchanged (an error aborts the transaction with no partial
writes, stated through applyTx). -/
theorem C7_owner_restricted_denied (st : Store) (caller : String)
    (h : caller ≠ ownerString st) :
    (∀ id name access,
        addOrg st caller id name access = .error Err.permissionDenied ∧
        applyTx (Tx.addOrg caller id name access) st = st) ∧
    (∀ id name,
        updateOrgName st caller id name = .error Err.permissionDenied ∧
        applyTx (Tx.updateOrgName caller id name) st = st) ∧
    (∀ id access,
        updateOrgAccess st caller id access = .error Err.permissionDenied ∧
        applyTx (Tx.updateOrgAccess caller id access) st = st) ∧
    (∀ id dataset access,
        updateOrgDatasetAccess st caller id dataset access
          = .error Err.permissionDenied ∧
        applyTx (Tx.updateOrgDatasetAccess caller id dataset access) st
          = st) ∧
    (∀ id,
        removeOrg st caller id = .error Err.permissionDenied ∧
        applyTx (Tx.removeOrg caller id) st = st) := by
  have ho : onlyOwner st caller = .error Err.permissionDenied := by
    have hne : ownerString st ≠ caller := fun hc => h hc.symm
    simp [onlyOwner, hne]
  refine ⟨?_, ?_, ?_, ?_, ?_⟩
  · intro id name access
    exact ⟨by simp [addOrg, ho], by simp [applyTx, step, addOrg, ho]⟩
  · intro id name
    exact ⟨by simp [updateOrgName, ho],
           by simp [applyTx, step, updateOrgName, ho]⟩
  · intro id access
    exact ⟨by simp [updateOrgAccess, ho],
           by simp [applyTx, step, updateOrgAccess, ho]⟩
  · intro id dataset access
    exact ⟨by simp [updateOrgDatasetAccess, ho],
           by simp [applyTx, step, updateOrgDatasetAccess, ho]⟩
  · intro id
    exact ⟨by simp [removeOrg, ho], by simp [applyTx, step, removeOrg, ho]⟩

/-- C7 witness: the non-owner "mallory" is denied on each of the five
owner-restricted operations over the initialized example store, with the
committed state unchanged. -/
theorem C7_witness :
    (addOrg stOwnerOnly "mallory" "X" "N" 7 = .error Err.permissionDenied ∧
      applyTx (Tx.addOrg "mallory" "X" "N" 7) stOwnerOnly = stOwnerOnly) ∧
    (updateOrgName stOwnerOnly "mallory" "X" "N"
        = .error Err.permissionDenied ∧
      applyTx (Tx.updateOrgName "mallory" "X" "N") stOwnerOnly
        = stOwnerOnly) ∧
    (updateOrgAccess stOwnerOnly "mallory" "X" 7
        = .error Err.permissionDenied ∧
      applyTx (Tx.updateOrgAccess "mallory" "X" 7) stOwnerOnly
        = stOwnerOnly) ∧
    (updateOrgDatasetAccess stOwnerOnly "mallory" "X" "d1" 7
        = .error Err.permissionDenied ∧
      applyTx (Tx.updateOrgDatasetAccess "mallory" "X" "d1" 7) stOwnerOnly
        = stOwnerOnly) ∧
    (removeOrg stOwnerOnly "mallory" "X" = .error Err.permissionDenied ∧
      applyTx (Tx.removeOrg "mallory" "X") stOwnerOnly = stOwnerOnly) :=
  ⟨(C7_owner_restricted_denied stOwnerOnly "mallory" (by decide)).1
      "X" "N" 7,
   (C7_owner_restricted_denied stOwnerOnly "mallory" (by decide)).2.1
      "X" "N",
   (C7_owner_restricted_denied stOwnerOnly "mallory" (by decide)).2.2.1
      "X" 7,
   (C7_owner_restricted_denied stOwnerOnly "mallory" (by decide)).2.2.2.1
      "X" "d1" 7,
   (C7_owner_restricted_denied stOwnerOnly "mallory" (by decide)).2.2.2.2
      "X"⟩

/-- C8: the claim states that after addUser(id, name, email, phone) by org
O, the org's users[id] flag is true and the stored User record carries the
profile fields with orgs[O] = true, in both the fresh-user and the
existing-user case.  On the code the fresh-user case writes the orgs map
with the LITERAL key "orgId" (an object-literal slip for the computed
calling-org id), so orgs["Org1MSP"] is absent (conjuncts one to three);
and in the existing-user case the `const user` inside the try block
shadows the outer variable, which stays undefined, so serializing it
throws a TypeError and the transaction aborts (fourth conjunct). -/
theorem C8_addUser_literal_orgId_key :
    addUser stOrg1 "Org1MSP" "u1" "n" "e" "p" = .ok stOrg1After ∧
    getKV userNew.orgs "orgId" = some true ∧
    getKV userNew.orgs "Org1MSP" = none ∧
    addUser stOrg1WithUser "Org1MSP" "u1" "n" "e" "p"
      = .error Err.typeError :=
  ⟨rfl, rfl, rfl, rfl⟩

/-- C9: removeUser is idempotent on the committed state: from any state in
which the calling org's record exists, running removeUser(id) twice (the
second run starting from the first run's committed state) equals running
it once — the first run flips the org's users[id] flag to false (writing
nothing to the user record, whose in-memory flip is never put), so the
second run finds the flag falsy and is a no-op. -/
theorem C9_removeUser_idempotent (st : Store) (callerOrg id : String)
    (o : Org) (h : getState st (Key.org callerOrg) = some (Value.org o)) :
    (removeUser st callerOrg id).bind (fun st1 => removeUser st1 callerOrg id)
      = removeUser st callerOrg id := by
  have hO : getOrgObj st callerOrg = .ok o := by
    simp [getOrgObj, getObjectByKey, h]
  by_cases ht : truthy (getKV o.users id) = true
  · have hstep : removeUser st callerOrg id
        = .ok (putState st (Key.org callerOrg)
            (Value.org { o with users := setKV o.users id false })) := by
      simp [removeUser, hO, ht]
    rw [hstep]
    show removeUser (putState st (Key.org callerOrg)
        (Value.org { o with users := setKV o.users id false })) callerOrg id
      = _
    have h1 : getState (putState st (Key.org callerOrg)
        (Value.org { o with users := setKV o.users id false }))
          (Key.org callerOrg)
        = some (Value.org { o with users := setKV o.users id false }) :=
      getKV_setKV_self st (Key.org callerOrg) _
    have hO2 : getOrgObj (putState st (Key.org callerOrg)
        (Value.org { o with users := setKV o.users id false })) callerOrg
        = .ok { o with users := setKV o.users id false } := by
      simp [getOrgObj, getObjectByKey, h1]
    have ht2 : truthy (getKV (setKV o.users id false) id) = false := by
      rw [getKV_setKV_self]
      rfl
    simp [removeUser, hO2, ht2]
  · have hstep : removeUser st callerOrg id = .ok st := by
      simp [removeUser, hO, ht]
    rw [hstep]
    show removeUser st callerOrg id = .ok st
    exact hstep

/-- C9 witness: on the concrete store whose org "O" lists user "u1", a
second removeUser commits exactly the state of the first. -/
theorem C9_witness :
    (removeUser stW "O" "u1").bind (fun st1 => removeUser st1 "O" "u1")
      = removeUser stW "O" "u1" :=
  C9_removeUser_idempotent stW "O" "u1" orgW rfl

/-- C10: the committed state of publishDatasetTo is independent of the
dataset and access arguments: two invocations from the same state by the
same calling org on the same channel agree exactly, whatever dataset and
access values they pass, because the method only records pubs[channel] and
appends the caller to the channel's publisher list — the sole write path
for dataset grants is updateOrgDatasetAccess. -/
theorem C10_publish_independent_of_dataset_access (st : Store)
    (callerOrg ds1 ds2 channel : String) (a1 a2 : Nat) :
    publishDatasetTo st callerOrg ds1 channel a1
      = publishDatasetTo st callerOrg ds2 channel a2 := rfl

end DSChain
